import Mathlib

/-!
Verification development for the CollisionDetection repository.

The Python sources are shallowly embedded:
* Python strings are `List Char` (`PyStr`);
* parsed JSON values (the dynamic dictionaries returned by `json.loads`)
  are the inductive `JVal`, with Python dicts as association lists;
* fallible Python code returns `Except PyExc _`, where `PyExc`
  distinguishes the exception classes relevant to the sources
  (`ValueError`, `json.JSONDecodeError`, `KeyError`, `TypeError`,
  `AttributeError`);
* the remote LLM is a parameter: a stream `Nat → PyStr` of responses
  (index 0 is the initial `analyze_consistency` answer, index `i + 1`
  the answer to the `i`-th correction call).
-/

namespace CollisionDetection

/-- Python strings, embedded as lists of characters. -/
abbrev PyStr := List Char

/-- Values produced by `json.loads`: the dynamic data the fact checker
manipulates.  Python dicts are association lists over `PyStr` keys. -/
inductive JVal where
  | none : JVal
  | bool : Bool → JVal
  | num : ℚ → JVal
  | str : PyStr → JVal
  | list : List JVal → JVal
  | dict : List (PyStr × JVal) → JVal

/-- A Python dict with string keys. -/
abbrev Dict := List (PyStr × JVal)

/-- The Python exception classes that appear in the embedded code.
`jsonDecodeError` models `json.JSONDecodeError` (a `ValueError`
subclass). -/
inductive PyExc where
  | valueError : PyStr → PyExc
  | jsonDecodeError : PyStr → PyExc
  | keyError : PyStr → PyExc
  | typeError : PyStr → PyExc
  | attributeError : PyStr → PyExc
deriving DecidableEq

/-- Whether the exception is caught by
`except (json.JSONDecodeError, ValueError)` in `check_facts`
(`json.JSONDecodeError` is a subclass of `ValueError`). -/
def PyExc.isCatchable : PyExc → Bool
  | .valueError _ => true
  | .jsonDecodeError _ => true
  | _ => false

/-- `str(e)` for the embedded exceptions. -/
def PyExc.message : PyExc → PyStr
  | .valueError m => m
  | .jsonDecodeError m => m
  | .keyError k => k
  | .typeError m => m
  | .attributeError m => m

/-- Association-list lookup: `d[k]` when present (Python dicts have
unique keys; the embedding keeps the first match). -/
def alookup {α : Type} : List (PyStr × α) → PyStr → Option α
  | [], _ => Option.none
  | (k', v) :: rest, k => if k' = k then some v else alookup rest k

/-- Association-list update `d[k] = v`: replaces the existing binding in
place, or appends a new one — Python dict assignment semantics. -/
def aset {α : Type} : List (PyStr × α) → PyStr → α → List (PyStr × α)
  | [], k, v => [(k, v)]
  | (k', v') :: rest, k, v =>
      if k' = k then (k, v) :: rest else (k', v') :: aset rest k v

theorem alookup_aset_self {α : Type} (d : List (PyStr × α)) (k : PyStr) (v : α) :
    alookup (aset d k v) k = some v := by
  induction d with
  | nil => simp [aset, alookup]
  | cons p rest ih =>
      obtain ⟨k', v'⟩ := p
      by_cases h : k' = k <;> simp [aset, alookup, h, ih]

theorem alookup_aset_ne {α : Type} (d : List (PyStr × α)) (k k' : PyStr) (v : α)
    (h : k ≠ k') : alookup (aset d k v) k' = alookup d k' := by
  induction d with
  | nil => simp [aset, alookup, h]
  | cons p rest ih =>
      obtain ⟨k₀, v₀⟩ := p
      by_cases h₀ : k₀ = k
      · subst h₀
        simp [aset, alookup, h]
      · simp only [aset, if_neg h₀]
        by_cases h₁ : k₀ = k' <;> simp [alookup, h₁, ih]

theorem aset_eq_self {α : Type} (d : List (PyStr × α)) (k : PyStr) (v : α)
    (h : alookup d k = some v) : aset d k v = d := by
  induction d with
  | nil => simp [alookup] at h
  | cons p rest ih =>
      obtain ⟨k', v'⟩ := p
      by_cases h₀ : k' = k
      · subst h₀
        simp [alookup] at h
        simp [aset, h]
      · simp [alookup, h₀] at h
        simp [aset, h₀, ih h]

/-- Python truthiness (`bool(x)`) for the embedded values. -/
def pyTruthy : JVal → Bool
  | .none => false
  | .bool b => b
  | .num q => q != 0
  | .str s => !s.isEmpty
  | .list xs => !xs.isEmpty
  | .dict d => !d.isEmpty

/-- Python `str.strip()`: drop leading and trailing whitespace. -/
def pyStrip (s : PyStr) : PyStr :=
  ((s.dropWhile Char.isWhitespace).reverse.dropWhile Char.isWhitespace).reverse

/-- The leading-fence removal of `_clean_json_response`
(fact_checker.py, lines 150-153): `response[7:]` after ```json,
`response[3:]` after ```. -/
def stripFenceLead (r : PyStr) : PyStr :=
  if ("```json".toList).isPrefixOf r then r.drop 7
  else if ("```".toList).isPrefixOf r then r.drop 3
  else r

/-- The trailing-fence removal of `_clean_json_response`
(fact_checker.py, lines 155-156): `response[:-3]` when the string ends
with ```. -/
def stripFenceTrail (r : PyStr) : PyStr :=
  if ("```".toList).isSuffixOf r then r.take (r.length - 3) else r

/-- `FactConsistencyChecker._clean_json_response` (fact_checker.py,
lines 136-161): strip, remove a leading ```json / ``` fence and a
trailing ``` fence, strip again. -/
def clean_json_response (response : PyStr) : PyStr :=
  pyStrip (stripFenceTrail (stripFenceLead (pyStrip response)))

/-! ### A model of `json.loads`

`check_facts` parses the (cleaned) model response with the standard
library's `json.loads`; the parser below models it: JSON values are
`true`/`false`/`null`, numbers, strings with the standard escapes,
arrays and objects (later duplicate keys win, as in Python).  A parse
failure is a `json.JSONDecodeError`. -/

/-- JSON whitespace. -/
def isJsonWs (c : Char) : Bool := c == ' ' || c == '\t' || c == '\n' || c == '\r'

/-- Skip JSON whitespace. -/
def skipWs (s : PyStr) : PyStr := s.dropWhile isJsonWs

/-- Hexadecimal digit value, for `\uXXXX` escapes. -/
def hexVal (c : Char) : Option ℕ :=
  if '0' ≤ c ∧ c ≤ '9' then some (c.toNat - '0'.toNat)
  else if 'a' ≤ c ∧ c ≤ 'f' then some (c.toNat - 'a'.toNat + 10)
  else if 'A' ≤ c ∧ c ≤ 'F' then some (c.toNat - 'A'.toNat + 10)
  else Option.none

/-- Prepend a character to the string being accumulated by
`parseStringBody`. -/
def consChar (c : Char) :
    Except PyExc (PyStr × PyStr) → Except PyExc (PyStr × PyStr)
  | .ok (s, rem) => .ok (c :: s, rem)
  | .error e => .error e

/-- Scan a JSON string body (the opening quote already consumed),
returning the decoded string and the remaining input. -/
def parseStringBody : PyStr → Except PyExc (PyStr × PyStr)
  | [] => .error (.jsonDecodeError "Unterminated string".toList)
  | '"' :: rest => .ok ([], rest)
  | '\\' :: '"' :: rest => consChar '"' (parseStringBody rest)
  | '\\' :: '\\' :: rest => consChar '\\' (parseStringBody rest)
  | '\\' :: '/' :: rest => consChar '/' (parseStringBody rest)
  | '\\' :: 'b' :: rest => consChar '\x08' (parseStringBody rest)
  | '\\' :: 'f' :: rest => consChar '\x0c' (parseStringBody rest)
  | '\\' :: 'n' :: rest => consChar '\n' (parseStringBody rest)
  | '\\' :: 'r' :: rest => consChar '\r' (parseStringBody rest)
  | '\\' :: 't' :: rest => consChar '\t' (parseStringBody rest)
  | '\\' :: 'u' :: h1 :: h2 :: h3 :: h4 :: rest =>
      match hexVal h1, hexVal h2, hexVal h3, hexVal h4 with
      | some a, some b, some c, some d =>
          consChar (Char.ofNat (((a * 16 + b) * 16 + c) * 16 + d)) (parseStringBody rest)
      | _, _, _, _ => .error (.jsonDecodeError "Invalid \\uXXXX escape".toList)
  | '\\' :: _ => .error (.jsonDecodeError "Invalid \\escape".toList)
  | c :: rest => consChar c (parseStringBody rest)

/-- Digit run to a natural number. -/
def digitsToNat (ds : PyStr) : ℕ :=
  ds.foldl (fun a c => a * 10 + (c.toNat - '0'.toNat)) 0

/-- Parse an optional exponent part and finish the number. -/
def parseExpPart (q : ℚ) (s : PyStr) : Except PyExc (ℚ × PyStr) :=
  match s with
  | 'e' :: r | 'E' :: r =>
      let sr : ℤ × PyStr :=
        match r with
        | '+' :: t => (1, t)
        | '-' :: t => (-1, t)
        | _ => (1, r)
      let es := sr.2.takeWhile Char.isDigit
      if es.isEmpty then .error (.jsonDecodeError "Expecting digits in exponent".toList)
      else .ok (q * (10 : ℚ) ^ (sr.1 * (digitsToNat es : ℤ)), sr.2.drop es.length)
  | _ => .ok (q, s)

/-- Parse an unsigned JSON number (integer part, optional fraction,
optional exponent). -/
def parseUnsignedNum (s : PyStr) : Except PyExc (ℚ × PyStr) :=
  let ds := s.takeWhile Char.isDigit
  let rest := s.drop ds.length
  if ds.isEmpty then .error (.jsonDecodeError "Expecting value".toList)
  else
    match rest with
    | '.' :: r =>
        let fs := r.takeWhile Char.isDigit
        if fs.isEmpty then .error (.jsonDecodeError "Expecting digits after decimal point".toList)
        else
          parseExpPart ((digitsToNat ds : ℚ) + (digitsToNat fs : ℚ) / (10 : ℚ) ^ fs.length)
            (r.drop fs.length)
    | _ => parseExpPart (digitsToNat ds : ℚ) rest

/-- Parse a JSON number, with optional leading minus sign. -/
def parseNum (s : PyStr) : Except PyExc (JVal × PyStr) :=
  match s with
  | '-' :: r =>
      match parseUnsignedNum r with
      | .ok (q, rem) => .ok (.num (-q), rem)
      | .error e => .error e
  | _ =>
      match parseUnsignedNum s with
      | .ok (q, rem) => .ok (.num q, rem)
      | .error e => .error e

mutual

/-- Parse one JSON value (fuelled recursive descent). -/
def parseVal : ℕ → PyStr → Except PyExc (JVal × PyStr)
  | 0, _ => .error (.jsonDecodeError "Too deeply nested".toList)
  | Nat.succ fuel, s =>
      match skipWs s with
      | '{' :: rest => parseObjStart fuel (skipWs rest)
      | '[' :: rest => parseArrStart fuel (skipWs rest)
      | '"' :: rest =>
          match parseStringBody rest with
          | .ok (str, rem) => .ok (.str str, rem)
          | .error e => .error e
      | 't' :: 'r' :: 'u' :: 'e' :: rest => .ok (.bool true, rest)
      | 'f' :: 'a' :: 'l' :: 's' :: 'e' :: rest => .ok (.bool false, rest)
      | 'n' :: 'u' :: 'l' :: 'l' :: rest => .ok (.none, rest)
      | s' => parseNum s'

/-- Parse an object after the opening brace (whitespace consumed). -/
def parseObjStart : ℕ → PyStr → Except PyExc (JVal × PyStr)
  | 0, _ => .error (.jsonDecodeError "Too deeply nested".toList)
  | Nat.succ fuel, s =>
      match s with
      | '}' :: rest => .ok (.dict [], rest)
      | _ => parseObjMembers fuel s []

/-- Parse the members of an object; `acc` holds the bindings parsed so
far (duplicate keys overwrite, as in Python dict construction). -/
def parseObjMembers : ℕ → PyStr → Dict → Except PyExc (JVal × PyStr)
  | 0, _, _ => .error (.jsonDecodeError "Too deeply nested".toList)
  | Nat.succ fuel, s, acc =>
      match s with
      | '"' :: rest =>
          match parseStringBody rest with
          | .error e => .error e
          | .ok (k, rem) =>
              match skipWs rem with
              | ':' :: rem2 =>
                  match parseVal fuel rem2 with
                  | .error e => .error e
                  | .ok (v, rem3) =>
                      match skipWs rem3 with
                      | ',' :: rem4 => parseObjMembers fuel (skipWs rem4) (aset acc k v)
                      | '}' :: rem4 => .ok (.dict (aset acc k v), rem4)
                      | _ => .error (.jsonDecodeError "Expecting , delimiter".toList)
              | _ => .error (.jsonDecodeError "Expecting : delimiter".toList)
      | _ => .error (.jsonDecodeError "Expecting property name enclosed in double quotes".toList)

/-- Parse an array after the opening bracket (whitespace consumed). -/
def parseArrStart : ℕ → PyStr → Except PyExc (JVal × PyStr)
  | 0, _ => .error (.jsonDecodeError "Too deeply nested".toList)
  | Nat.succ fuel, s =>
      match s with
      | ']' :: rest => .ok (.list [], rest)
      | _ => parseArrItems fuel s []

/-- Parse the items of an array; `acc` holds the items parsed so far. -/
def parseArrItems : ℕ → PyStr → List JVal → Except PyExc (JVal × PyStr)
  | 0, _, _ => .error (.jsonDecodeError "Too deeply nested".toList)
  | Nat.succ fuel, s, acc =>
      match parseVal fuel s with
      | .error e => .error e
      | .ok (v, rem) =>
          match skipWs rem with
          | ',' :: rem2 => parseArrItems fuel rem2 (acc ++ [v])
          | ']' :: rem2 => .ok (.list (acc ++ [v]), rem2)
          | _ => .error (.jsonDecodeError "Expecting , delimiter".toList)

end

/-- Model of `json.loads`: parse one value, then require only
whitespace to remain. -/
def json_loads (s : PyStr) : Except PyExc JVal :=
  match parseVal (s.length + 2) s with
  | .error e => .error e
  | .ok (v, rem) =>
      if (skipWs rem).isEmpty then .ok v
      else .error (.jsonDecodeError "Extra data".toList)

/-! ### `FactConsistencyChecker._validate_response` (fact_checker.py, lines 163-219) -/

/-- The `has_conflicts` key. -/
def hcKey : PyStr := "has_conflicts".toList

/-- The `has_supporting_facts` key. -/
def hsfKey : PyStr := "has_supporting_facts".toList

/-- The `inconsistencies` key. -/
def incKey : PyStr := "inconsistencies".toList

/-- The `supporting_facts` key. -/
def supKey : PyStr := "supporting_facts".toList

/-- The `confidence` key. -/
def confKey : PyStr := "confidence".toList

/-- The `explanation` key. -/
def explKey : PyStr := "explanation".toList

/-- The `statement` key of a list element. -/
def stKey : PyStr := "statement".toList

/-- The `fact` key of a list element. -/
def factKey : PyStr := "fact".toList

/-- Contiguous-substring test (Python `needle in haystack` on strings). -/
def strContains : PyStr → PyStr → Bool
  | n, [] => n.isEmpty
  | n, c :: rest => n.isPrefixOf (c :: rest) || strContains n rest

/-- Python `==` between a value and a string (used for `k in someList`):
only equal strings compare equal. -/
def eqStr (v : JVal) (k : PyStr) : Bool :=
  match v with
  | .str s => s = k
  | _ => false

/-- Python `k in v`: key membership for dicts, substring for strings,
element membership for lists; `TypeError` otherwise. -/
def pyIn (k : PyStr) (v : JVal) : Except PyExc Bool :=
  match v with
  | .dict d => .ok (alookup d k).isSome
  | .str s => .ok (strContains k s)
  | .list xs => .ok (xs.any (eqStr · k))
  | _ => .error (.typeError "argument of type is not iterable".toList)

/-- Python `v.get(k)`: `None` when absent; `AttributeError` when `v` is
not a dict. -/
def pyGet (v : JVal) (k : PyStr) : Except PyExc JVal :=
  match v with
  | .dict d => .ok ((alookup d k).getD .none)
  | _ => .error (.attributeError "object has no attribute get".toList)

/-- Python `v[k]` with a string key: `KeyError` for a dict missing the
key, `TypeError` for any non-dict. -/
def pySubscript (v : JVal) (k : PyStr) : Except PyExc JVal :=
  match v with
  | .dict d =>
      match alookup d k with
      | some x => .ok x
      | _ => .error (.keyError k)
  | .str _ => .error (.typeError "string indices must be integers".toList)
  | .list _ => .error (.typeError "list indices must be integers".toList)
  | _ => .error (.typeError "object is not subscriptable".toList)

/-- `isinstance(v, bool)`. -/
def isinstBool : JVal → Bool
  | .bool _ => true
  | _ => false

/-- `isinstance(v, list)`. -/
def isinstList : JVal → Bool
  | .list _ => true
  | _ => false

/-- `isinstance(v, (int, float))` — Python `bool` is a subclass of
`int`, so booleans pass too. -/
def isinstNum : JVal → Bool
  | .num _ => true
  | .bool _ => true
  | _ => false

/-- `isinstance(v, str)`. -/
def isinstStr : JVal → Bool
  | .str _ => true
  | _ => false

/-- `all(field in response for field in required_fields)` with the
source's `required_fields` list — note it omits
`has_supporting_facts`. -/
def requiredFieldsCheck (response : JVal) : Except PyExc Bool := do
  let b1 ← pyIn hcKey response
  if !b1 then return false
  let b2 ← pyIn incKey response
  if !b2 then return false
  let b3 ← pyIn supKey response
  if !b3 then return false
  let b4 ← pyIn confKey response
  if !b4 then return false
  pyIn explKey response

/-- `all(k in elem for k in ['statement', 'fact', 'explanation'])`
(short-circuiting, as the Python generator does). -/
def elementKeysCheck (elem : JVal) : Except PyExc Bool := do
  let b1 ← pyIn stKey elem
  if !b1 then return false
  let b2 ← pyIn factKey elem
  if !b2 then return false
  pyIn explKey elem

/-- The per-element structure loop: raise `ValueError msg` on the first
element missing one of the three keys. -/
def checkElements (msg : PyStr) : List JVal → Except PyExc Unit
  | [] => .ok ()
  | elem :: rest => do
      let ok ← elementKeysCheck elem
      if !ok then .error (.valueError msg)
      else checkElements msg rest

/-- `[e for e in xs if e.get('fact')]`: keep the elements whose `fact`
value is truthy (left-to-right, propagating any exception). -/
def filterNonemptyFact : List JVal → Except PyExc (List JVal)
  | [] => .ok []
  | elem :: rest => do
      let f ← pyGet elem factKey
      let rest' ← filterNonemptyFact rest
      if pyTruthy f then .ok (elem :: rest') else .ok rest'

/-- The in-place normalization at the end of `_validate_response`:
store the filtered lists and force a flag to `False` when its filtered
list is empty. -/
def normalizeLists (d : Dict) (incF supF : List JVal) : Dict :=
  let r1 := aset d incKey (.list incF)
  let r2 := if incF.isEmpty then aset r1 hcKey (.bool false) else r1
  let r3 := aset r2 supKey (.list supF)
  if supF.isEmpty then aset r3 hsfKey (.bool false) else r3

/-- The `ValueError` message for a malformed `inconsistencies`
element. -/
def incElemMsg : PyStr := "Некорректная структура элемента inconsistencies".toList

/-- The `ValueError` message for a malformed `supporting_facts`
element. -/
def supElemMsg : PyStr := "Некорректная структура элемента supporting_facts".toList

/-- `FactConsistencyChecker._validate_response`: field presence check
(over a `required_fields` list that omits `has_supporting_facts`), type
checks (the `has_supporting_facts` access can therefore raise
`KeyError`), element-structure checks, then filtering/normalization.
The Python mutates the dict in place; the embedding returns the mutated
dict. -/
def validate_response (response : JVal) : Except PyExc JVal := do
  let allPresent ← requiredFieldsCheck response
  if !allPresent then
    .error (.valueError "В ответе отсутствуют обязательные поля".toList)
  else do
    let hc ← pySubscript response hcKey
    if !isinstBool hc then
      .error (.valueError "Поле has_conflicts должно быть boolean".toList)
    else do
      let hsf ← pySubscript response hsfKey
      if !isinstBool hsf then
        .error (.valueError "Поле has_supporting_facts должно быть boolean".toList)
      else do
        let inc ← pySubscript response incKey
        if !isinstList inc then
          .error (.valueError "Поле inconsistencies должно быть списком".toList)
        else do
          let sup ← pySubscript response supKey
          if !isinstList sup then
            .error (.valueError "Поле supporting_facts должно быть списком".toList)
          else do
            let conf ← pySubscript response confKey
            if !isinstNum conf then
              .error (.valueError "Поле confidence должно быть числом".toList)
            else do
              let expl ← pySubscript response explKey
              if !isinstStr expl then
                .error (.valueError "Поле explanation должно быть строкой".toList)
              else
                match response, inc, sup with
                | .dict d, .list incXs, .list supXs => do
                    checkElements incElemMsg incXs
                    checkElements supElemMsg supXs
                    let incF ← filterNonemptyFact incXs
                    let supF ← filterNonemptyFact supXs
                    .ok (.dict (normalizeLists d incF supF))
                | _, _, _ =>
                    .error (.typeError "object does not support item assignment".toList)

/-! ### `FactConsistencyChecker.check_facts` (fact_checker.py, lines 55-134)

The JSON-repair retry loop.  The LLM is modelled as a stream
`llm : ℕ → PyStr`: `llm 0` is the initial `analyze_consistency`
response and `llm (i + 1)` the response to the `i`-th correction call.
The loop records every correction call it issues. -/

/-- One `analyze_consistency` correction call, with the exact arguments
the source passes (`temperature=0.1`, `max_tokens=1500`). -/
structure CorrectionCall where
  prompt : PyStr
  system_prompt : PyStr
  temperature : ℚ
  max_tokens : ℕ
deriving DecidableEq

/-- The correction system prompt (fact_checker.py, line 112). -/
def correction_system_prompt : PyStr :=
  "Вы - помощник для исправления JSON формата. Верните ТОЛЬКО корректный JSON без markdown разметки, без тройных кавычек, без дополнительного текста.".toList

/-- The correction prompt f-string (fact_checker.py, lines 100-108),
with the previous response and `str(e)` interpolated. -/
def correction_prompt (llm_response err : PyStr) : PyStr :=
  "Ваш предыдущий ответ имел некорректный JSON формат. \nПожалуйста, исправьте его и верните ТОЛЬКО корректный JSON без markdown разметки, без дополнительного текста, без тройных кавычек.\n\nВаш предыдущий ответ:\n".toList
    ++ llm_response
    ++ "\n\nОшибка: ".toList
    ++ err
    ++ "\n\nВерните исправленный JSON в правильном формате (только JSON, без ```):".toList

/-- The correction call issued after a failed attempt on `resp` with
exception `e`. -/
def mkCorrection (resp : PyStr) (e : PyExc) : CorrectionCall :=
  ⟨correction_prompt resp e.message, correction_system_prompt, 1/10, 1500⟩

/-- `max_attempts = 5` (fact_checker.py, line 83). -/
def max_attempts : ℕ := 5

/-- One parse attempt of the loop body: clean the response, parse it as
JSON, validate it. -/
def parse_attempt (resp : PyStr) : Except PyExc JVal := do
  let parsed ← json_loads (clean_json_response resp)
  validate_response parsed

/-- The message of the `ValueError` raised when the last attempt fails
(fact_checker.py, line 119). -/
def final_error_message (e : PyExc) : PyStr :=
  "Ошибка парсинга JSON ответа после ".toList ++ (toString max_attempts).toList
    ++ " попыток: ".toList ++ e.message

/-- Outcome of the retry loop: the validated response (or the escaping
exception), the number of parse attempts made, and the correction calls
issued, in order. -/
inductive CheckResult where
  | ok : JVal → ℕ → List CorrectionCall → CheckResult
  | err : PyExc → ℕ → List CorrectionCall → CheckResult

/-- The retry loop of `check_facts`.  `remaining` counts the attempts
left (`max_attempts` initially), `attempt` the 0-based index of the
current attempt; `attempt < max_attempts - 1` in the source becomes
`1 < remaining`.  Exceptions other than `ValueError` /
`json.JSONDecodeError` escape immediately. -/
def check_facts_go (llm : ℕ → PyStr) :
    ℕ → ℕ → PyStr → List CorrectionCall → CheckResult
  | 0, attempt, _, corrs => .err (.valueError []) attempt corrs
  | Nat.succ r, attempt, resp, corrs =>
      match parse_attempt resp with
      | .ok verdict => .ok verdict (attempt + 1) corrs
      | .error e =>
          if e.isCatchable then
            if 0 < r then
              check_facts_go llm r (attempt + 1) (llm (attempt + 1))
                (corrs ++ [mkCorrection resp e])
            else .err (.valueError (final_error_message e)) (attempt + 1) corrs
          else .err e (attempt + 1) corrs

/-- The parse/validate/retry phase of `check_facts`, fed by the
response stream `llm`. -/
def check_facts_json (llm : ℕ → PyStr) : CheckResult :=
  check_facts_go llm max_attempts 0 (llm 0) []

/-- The `FactCheckResult` dataclass (fact_checker.py, lines 9-18).  The
dataclass does not enforce its annotations, so fields keep the dynamic
values copied out of the response dict. -/
structure FactCheckResult where
  has_conflicts : JVal
  has_supporting_facts : JVal
  inconsistencies : JVal
  supporting_facts : JVal
  confidence : JVal
  relevant_facts : List PyStr
  explanation : JVal

/-- `FactConsistencyChecker._parse_llm_response` (fact_checker.py,
lines 261-284). -/
def parse_llm_response (response : JVal) (relevant_facts : List PyStr) :
    Except PyExc FactCheckResult := do
  let hc ← pySubscript response hcKey
  let hsf ← pySubscript response hsfKey
  let inc ← pySubscript response incKey
  let sup ← pySubscript response supKey
  let conf ← pySubscript response confKey
  let expl ← pySubscript response explKey
  .ok ⟨hc, hsf, inc, sup, conf, relevant_facts, expl⟩

/-- `check_facts` end to end: run the retry loop, then build the
`FactCheckResult`; the attempt count and correction calls are kept as
observables. -/
def check_facts (llm : ℕ → PyStr) (relevant_facts : List PyStr) :
    Except PyExc (FactCheckResult × ℕ × List CorrectionCall) :=
  match check_facts_json llm with
  | .ok v n corrs =>
      match parse_llm_response v relevant_facts with
      | .ok r => .ok (r, n, corrs)
      | .error e => .error e
  | .err e _ _ => .error e

/-! ### `get_retrieved_nodes` (api.py lines 104-164, main.py lines 17-78)

The function builds the hybrid retriever out of library collaborators,
retrieves, and — only when `with_reranker` is true — applies the
`LLMRerank` postprocessor (configured with `top_n = reranker_top_n`).
The collaborators are parameters of the embedding: `retrieved_nodes` is
what `retriever.retrieve(query_bundle)` returned and
`reranker_postprocess` is `reranker.postprocess_nodes`.  There is no
other code path: in particular no truncation happens when
`with_reranker` is false. -/

/-- A retrieved node with its retrieval score. -/
structure ScoredNode where
  id : ℕ
  score : ℚ
deriving DecidableEq

/-- The tail of `get_retrieved_nodes` after `retriever.retrieve`:
apply the reranker when enabled, otherwise return the retrieved
sequence as is. -/
def get_retrieved_nodes (retrieved_nodes : List ScoredNode)
    (reranker_postprocess : List ScoredNode → List ScoredNode)
    (with_reranker : Bool) : List ScoredNode :=
  if with_reranker then reranker_postprocess retrieved_nodes
  else retrieved_nodes

/-! ### `YandexCloudLLM` retry decorators (llm_service.py lines 52-166)

Each method is decorated with tenacity's
`retry(stop=stop_after_attempt(n), wait=wait_exponential(multiplier=1,
min=4, max=10))`.  The decorator parameters are recorded per method,
and `retryRun` models tenacity's driver: run the call up to
`stopAfterAttempt` times, returning the first success, else failing
with the last exception. -/

/-- Parameters of a tenacity `retry` decorator as used in
llm_service.py. -/
structure RetryPolicy where
  stopAfterAttempt : ℕ
  waitMultiplier : ℕ
  waitMin : ℕ
  waitMax : ℕ
deriving DecidableEq

/-- Decorator on `YandexCloudLLM.analyze_consistency`
(llm_service.py lines 52-55): `stop_after_attempt(1)`. -/
def analyze_consistency_retry : RetryPolicy := ⟨1, 1, 4, 10⟩

/-- Decorator on `YandexCloudLLM.request_gpt` (lines 106-109):
`stop_after_attempt(3)`. -/
def request_gpt_retry : RetryPolicy := ⟨3, 1, 4, 10⟩

/-- Decorator on `YandexCloudLLM.request_emb` (lines 143-146). -/
def request_emb_retry : RetryPolicy := ⟨3, 1, 4, 10⟩

/-- Decorator on `YandexCloudLLM.request_gpt_async` (lines 162-165). -/
def request_gpt_async_retry : RetryPolicy := ⟨3, 1, 4, 10⟩

/-- tenacity's retry driver: attempt `i`, and if it fails with
attempts remaining, try attempt `i + 1`. -/
def retryGo (call : ℕ → Except PyExc PyStr) : ℕ → ℕ → Except PyExc PyStr
  | 0, i => call i
  | 1, i => call i
  | Nat.succ (Nat.succ n), i =>
      match call i with
      | .ok r => .ok r
      | .error _ => retryGo call (Nat.succ n) (i + 1)

/-- Run a call under a retry policy (attempts are numbered from 1). -/
def retryRun (p : RetryPolicy) (call : ℕ → Except PyExc PyStr) :
    Except PyExc PyStr :=
  retryGo call p.stopAfterAttempt 1

/-! ### The embedding cache (graph_rag.py lines 16-44)

`_embeddings_cache` is a process-wide dict keyed by the exact input
text.  `CustomEmbeddingModel._get_query_embedding` and
`._get_text_embedding` consult it before calling
`emb_model.request_emb` and store the result on a miss.  The remote
service is a parameter; the result records the returned vector, the new
cache, and whether the remote call happened. -/

/-- The process-wide `_embeddings_cache`. -/
abbrev EmbCache := List (PyStr × List ℚ)

/-- Result of one embedding request: the vector, the cache afterwards,
and whether `request_emb` was invoked. -/
structure EmbResult where
  value : List ℚ
  cache : EmbCache
  remoteCalled : Bool
deriving DecidableEq

/-- `CustomEmbeddingModel._get_query_embedding` (graph_rag.py lines
23-31). -/
def get_query_embedding (request_emb : PyStr → List ℚ) (cache : EmbCache)
    (query : PyStr) : EmbResult :=
  match alookup cache query with
  | some v => ⟨v, cache, false⟩
  | _ =>
      let embedding := request_emb query
      ⟨embedding, aset cache query embedding, true⟩

/-- `CustomEmbeddingModel._get_text_embedding` (graph_rag.py lines
36-44) — the same code over the same shared cache. -/
def get_text_embedding (request_emb : PyStr → List ℚ) (cache : EmbCache)
    (text : PyStr) : EmbResult :=
  match alookup cache text with
  | some v => ⟨v, cache, false⟩
  | _ =>
      let embedding := request_emb text
      ⟨embedding, aset cache text embedding, true⟩

/-! ### Parameter overrides in the gateway completion calls
(llm_service.py lines 78-95, 131-137, 188-194)

All three completion methods pass
`temperature=temperature or self.temperature` and
`max_tokens=max_tokens or self.max_tokens`: a Python `or`, i.e. a
truthiness test, so `0`/`0.0` (and `None`) select the instance
default. -/

/-- The instance state relevant to the overrides. -/
structure YandexCloudLLMInst where
  temperature : ℚ
  max_tokens : ℕ
deriving DecidableEq

/-- Python `x or default` for an `Optional[float]` argument: `None`
and `0.0` are falsy. -/
def pyOrQ (arg : Option ℚ) (dflt : ℚ) : ℚ :=
  match arg with
  | some x => if x = 0 then dflt else x
  | _ => dflt

/-- Python `x or default` for an `Optional[int]` argument. -/
def pyOrN (arg : Option ℕ) (dflt : ℕ) : ℕ :=
  match arg with
  | some x => if x = 0 then dflt else x
  | _ => dflt

/-- The `(temperature, max_tokens)` pair `analyze_consistency` passes
to `chat.completions.create` (llm_service.py lines 92-93). -/
def analyze_consistency_params (self : YandexCloudLLMInst)
    (temperature : Option ℚ) (max_tokens : Option ℕ) : ℚ × ℕ :=
  (pyOrQ temperature self.temperature, pyOrN max_tokens self.max_tokens)

/-- The same pair as passed by `request_gpt` (lines 134-135). -/
def request_gpt_params (self : YandexCloudLLMInst)
    (temperature : Option ℚ) (max_tokens : Option ℕ) : ℚ × ℕ :=
  (pyOrQ temperature self.temperature, pyOrN max_tokens self.max_tokens)

/-- The same pair as passed by `request_gpt_async` (lines 191-192). -/
def request_gpt_async_params (self : YandexCloudLLMInst)
    (temperature : Option ℚ) (max_tokens : Option ℕ) : ℚ × ℕ :=
  (pyOrQ temperature self.temperature, pyOrN max_tokens self.max_tokens)

/-- The gateway instance built in fact_checker.py lines 286-291 and in
api.py lines 325-330: `temperature=0.1` and the constructor default
`max_tokens=1000`. -/
def fact_checker_llm_service : YandexCloudLLMInst := ⟨1/10, 1000⟩

/-! ## Claim theorems -/

/-! ### C1: which exception escapes `_validate_response` -/

/-- A structurally deficient model response: it has the five fields of
the source's `required_fields` list but lacks
`has_supporting_facts`. -/
def c1_response : PyStr :=
  "\x7b\"has_conflicts\": false, \"inconsistencies\": [], \"supporting_facts\": [], \"confidence\": 1, \"explanation\": \"ok\"\x7d".toList

/-- C1: the spec says every validation failure (in particular a missing
`has_supporting_facts` boolean) raises a `SchemaViolation`
(`ValueError`) caught by the correction-retry loop.  The code instead
raises `KeyError` for a missing `has_supporting_facts` — because
`required_fields` omits that key while the type check subscripts it —
and `KeyError` is not caught by
`except (json.JSONDecodeError, ValueError)`: it escapes `check_facts`
on the first attempt, with no correction call. -/
theorem C1_keyError_escapes :
    parse_attempt c1_response = .error (.keyError hsfKey) ∧
    PyExc.isCatchable (.keyError hsfKey) = false ∧
    check_facts_json (fun _ => c1_response) = .err (.keyError hsfKey) 1 [] :=
  ⟨rfl, rfl, rfl⟩

/-! ### C7: no truncation when the reranker is disabled -/

/-- Six retrieved candidates, more than the `reranker_top_n = 5` used
by the API and CLI orchestration. -/
def c7_nodes : List ScoredNode :=
  [⟨0, 9⟩, ⟨1, 8⟩, ⟨2, 7⟩, ⟨3, 6⟩, ⟨4, 5⟩, ⟨5, 4⟩]

/-- C7 counterexample: with `with_reranker = False` and 6 retrieved
candidates, `get_retrieved_nodes` returns all 6 — not at most
`reranker_top_n = 5` as the claim states. -/
theorem C7_counterexample :
    (get_retrieved_nodes c7_nodes id false).length = 6 ∧
    ¬ (get_retrieved_nodes c7_nodes id false).length ≤ 5 := by
  exact ⟨rfl, by decide⟩

/-- C7 amended: when the reranker is disabled, `get_retrieved_nodes`
returns the retrieved candidate sequence unchanged — no truncation to
`reranker_top_n` happens on that path. -/
theorem C7_no_truncation (retrieved : List ScoredNode)
    (rerank : List ScoredNode → List ScoredNode) :
    get_retrieved_nodes retrieved rerank false = retrieved := rfl

/-! ### C8: retry policies of the gateway -/

/-- C8: `request_gpt`, `request_gpt_async` and `request_emb` are
decorated with `stop_after_attempt(3)` and
`wait_exponential(multiplier=1, min=4, max=10)`, while
`analyze_consistency` gets `stop_after_attempt(1)`; when every attempt
fails, the last failure propagates to the caller. -/
theorem C8_retry_policies :
    request_gpt_retry = ⟨3, 1, 4, 10⟩ ∧
    request_gpt_async_retry = ⟨3, 1, 4, 10⟩ ∧
    request_emb_retry = ⟨3, 1, 4, 10⟩ ∧
    analyze_consistency_retry = ⟨1, 1, 4, 10⟩ ∧
    (∀ (call : ℕ → Except PyExc PyStr) (e₁ e₂ e₃ : PyExc),
        call 1 = .error e₁ → call 2 = .error e₂ → call 3 = .error e₃ →
        retryRun request_gpt_retry call = .error e₃) ∧
    (∀ (call : ℕ → Except PyExc PyStr) (e : PyExc),
        call 1 = .error e →
        retryRun analyze_consistency_retry call = .error e) := by
  refine ⟨rfl, rfl, rfl, rfl, ?_, ?_⟩
  · intro call e₁ e₂ e₃ h1 h2 h3
    simp [retryRun, retryGo, request_gpt_retry, h1, h2, h3]
  · intro call e h1
    simp [retryRun, retryGo, analyze_consistency_retry, h1]

/-- Witness for C8: a call that always fails with a fixed error is
retried to exhaustion and the error propagates. -/
theorem C8_retry_policies_witness :
    retryRun request_gpt_retry (fun _ => .error (.valueError ['x'])) =
      .error (.valueError ['x']) ∧
    retryRun analyze_consistency_retry (fun _ => .error (.valueError ['x'])) =
      .error (.valueError ['x']) :=
  ⟨C8_retry_policies.2.2.2.2.1 _ _ _ _ rfl rfl rfl,
   C8_retry_policies.2.2.2.2.2 _ _ rfl⟩

/-! ### C9: the embedding cache is write-once per key -/

/-- C9: a cache hit returns the stored vector with no remote call and
leaves the cache unchanged; and no request (hit or miss, query- or
text-embedding) ever changes the value stored under an existing key. -/
theorem C9_cache_write_once :
    (∀ (remote : PyStr → List ℚ) (cache : EmbCache) (q : PyStr) (v : List ℚ),
        alookup cache q = some v →
        get_query_embedding remote cache q = ⟨v, cache, false⟩ ∧
        get_text_embedding remote cache q = ⟨v, cache, false⟩) ∧
    (∀ (remote : PyStr → List ℚ) (cache : EmbCache) (q k : PyStr) (v : List ℚ),
        alookup cache k = some v →
        alookup (get_query_embedding remote cache q).cache k = some v ∧
        alookup (get_text_embedding remote cache q).cache k = some v) := by
  constructor
  · intro remote cache q v h
    constructor <;> simp [get_query_embedding, get_text_embedding, h]
  · intro remote cache q k v h
    have hq : ∀ res : EmbResult,
        (match alookup cache q with
          | some w => res.cache = cache
          | _ => res.cache = aset cache q (remote q)) →
        alookup res.cache k = some v := by
      intro res hres
      cases hcq : alookup cache q with
      | some w => rw [hcq] at hres; rw [hres]; exact h
      | none =>
          rw [hcq] at hres
          rw [hres]
          have hne : q ≠ k := by
            intro he
            rw [he, h] at hcq
            exact Option.noConfusion hcq
          rw [alookup_aset_ne _ _ _ _ hne]
          exact h
    constructor
    · apply hq
      simp only [get_query_embedding]
      cases hcq : alookup cache q <;> simp
    · apply hq
      simp only [get_text_embedding]
      cases hcq : alookup cache q <;> simp

/-- Witness for C9: a concrete one-entry cache — a hit on `"a"` returns
the stored vector without a remote call; a miss on `"b"` leaves the
`"a"` entry intact. -/
theorem C9_cache_write_once_witness :
    get_query_embedding (fun _ => [2]) [(['a'], [1])] ['a'] =
      ⟨[1], [(['a'], [1])], false⟩ ∧
    alookup (get_query_embedding (fun _ => [2]) [(['a'], [1])] ['b']).cache ['a'] =
      some [1] :=
  ⟨(C9_cache_write_once.1 (fun _ => [2]) [(['a'], [1])] ['a'] [1] rfl).1,
   (C9_cache_write_once.2 (fun _ => [2]) [(['a'], [1])] ['b'] ['a'] [1] rfl).1⟩

/-! ### C10: truthiness-based parameter overrides -/

/-- C10: in all three completion methods a caller-supplied
`temperature=0` or `max_tokens=0` is replaced by the instance defaults
(the Python `or` tests truthiness, not `None`); for the instance the
fact checker builds, the defaults are temperature `0.1` and
`max_tokens` `1000`. -/
theorem C10_zero_params_replaced :
    (∀ self : YandexCloudLLMInst,
        analyze_consistency_params self (some 0) (some 0) =
          (self.temperature, self.max_tokens) ∧
        request_gpt_params self (some 0) (some 0) =
          (self.temperature, self.max_tokens) ∧
        request_gpt_async_params self (some 0) (some 0) =
          (self.temperature, self.max_tokens)) ∧
    fact_checker_llm_service = ⟨1/10, 1000⟩ ∧
    analyze_consistency_params fact_checker_llm_service (some 0) (some 0) =
      (1/10, 1000) := by
  refine ⟨fun self => ⟨?_, ?_, ?_⟩, rfl, rfl⟩ <;>
    simp [analyze_consistency_params, request_gpt_params,
      request_gpt_async_params, pyOrQ, pyOrN]

/-! ### C2/C3: the retry loop -/

theorem check_facts_go_ok (llm : ℕ → PyStr) (r attempt : ℕ) (resp : PyStr)
    (corrs : List CorrectionCall) (v : JVal)
    (hp : parse_attempt resp = .ok v) :
    check_facts_go llm (r + 1) attempt resp corrs = .ok v (attempt + 1) corrs := by
  simp [check_facts_go, hp]

theorem check_facts_go_step (llm : ℕ → PyStr) (r attempt : ℕ) (resp : PyStr)
    (corrs : List CorrectionCall) (e : PyExc)
    (hp : parse_attempt resp = .error e) (hc : e.isCatchable = true) (hr : 0 < r) :
    check_facts_go llm (r + 1) attempt resp corrs =
      check_facts_go llm r (attempt + 1) (llm (attempt + 1))
        (corrs ++ [mkCorrection resp e]) := by
  simp [check_facts_go, hp, hc, hr]

theorem check_facts_go_last (llm : ℕ → PyStr) (attempt : ℕ) (resp : PyStr)
    (corrs : List CorrectionCall) (e : PyExc)
    (hp : parse_attempt resp = .error e) (hc : e.isCatchable = true) :
    check_facts_go llm 1 attempt resp corrs =
      .err (.valueError (final_error_message e)) (attempt + 1) corrs := by
  simp [check_facts_go, hp, hc]

/-- The previous response appears verbatim in the correction prompt,
and so does the error text. -/
theorem correction_prompt_contains (resp err : PyStr) :
    resp <:+: correction_prompt resp err ∧ err <:+: correction_prompt resp err := by
  constructor
  · exact ⟨"Ваш предыдущий ответ имел некорректный JSON формат. \nПожалуйста, исправьте его и верните ТОЛЬКО корректный JSON без markdown разметки, без дополнительного текста, без тройных кавычек.\n\nВаш предыдущий ответ:\n".toList,
      "\n\nОшибка: ".toList ++ err ++ "\n\nВерните исправленный JSON в правильном формате (только JSON, без ```):".toList,
      by simp only [correction_prompt, List.append_assoc]⟩
  · exact ⟨"Ваш предыдущий ответ имел некорректный JSON формат. \nПожалуйста, исправьте его и верните ТОЛЬКО корректный JSON без markdown разметки, без дополнительного текста, без тройных кавычек.\n\nВаш предыдущий ответ:\n".toList
        ++ resp ++ "\n\nОшибка: ".toList,
      "\n\nВерните исправленный JSON в правильном формате (только JSON, без ```):".toList,
      by simp only [correction_prompt, List.append_assoc]⟩

/-- C2 amended: when parsing/validation fails catchably on all five
attempts, `check_facts` makes exactly 5 parse attempts with a
correction call before each of the 4 retries, then raises a
`ValueError` whose message embeds the last validation error detail —
but not the last raw response. -/
theorem C2_five_attempts_then_error (llm : ℕ → PyStr) (err : ℕ → PyExc)
    (h : ∀ i, i < 5 →
        parse_attempt (llm i) = .error (err i) ∧ (err i).isCatchable = true) :
    check_facts_json llm =
      .err (.valueError (final_error_message (err 4))) 5
        [mkCorrection (llm 0) (err 0), mkCorrection (llm 1) (err 1),
         mkCorrection (llm 2) (err 2), mkCorrection (llm 3) (err 3)] ∧
    (err 4).message <:+: final_error_message (err 4) := by
  obtain ⟨h0, c0⟩ := h 0 (by norm_num)
  obtain ⟨h1, c1⟩ := h 1 (by norm_num)
  obtain ⟨h2, c2⟩ := h 2 (by norm_num)
  obtain ⟨h3, c3⟩ := h 3 (by norm_num)
  obtain ⟨h4, c4⟩ := h 4 (by norm_num)
  constructor
  · show check_facts_go llm 5 0 (llm 0) [] = _
    rw [show (5 : ℕ) = 4 + 1 from rfl,
      check_facts_go_step llm 4 0 (llm 0) [] (err 0) h0 c0 (by norm_num),
      show (4 : ℕ) = 3 + 1 from rfl,
      check_facts_go_step llm 3 1 (llm 1) _ (err 1) h1 c1 (by norm_num),
      show (3 : ℕ) = 2 + 1 from rfl,
      check_facts_go_step llm 2 2 (llm 2) _ (err 2) h2 c2 (by norm_num),
      show (2 : ℕ) = 1 + 1 from rfl,
      check_facts_go_step llm 1 3 (llm 3) _ (err 3) h3 c3 (by norm_num),
      check_facts_go_last llm 4 (llm 4) _ (err 4) h4 c4]
    simp
  · exact ⟨"Ошибка парсинга JSON ответа после ".toList
        ++ (toString max_attempts).toList ++ " попыток: ".toList, [],
      by simp only [final_error_message, List.append_assoc, List.append_nil]⟩

/-- The response stream for the C2 scenarios: malformed JSON on every
attempt. -/
def c2_llm : ℕ → PyStr := fun _ => "zzz".toList

/-- The parse error every attempt produces on `"zzz"`. -/
def c2_err : PyExc := .jsonDecodeError "Expecting value".toList

/-- Witness for C2 amended: the always-malformed stream makes 5
attempts, 4 corrections, and fails with the `ValueError`. -/
theorem C2_five_attempts_then_error_witness :
    check_facts_json c2_llm =
      .err (.valueError (final_error_message c2_err)) 5
        [mkCorrection "zzz".toList c2_err, mkCorrection "zzz".toList c2_err,
         mkCorrection "zzz".toList c2_err, mkCorrection "zzz".toList c2_err] ∧
    c2_err.message <:+: final_error_message c2_err :=
  C2_five_attempts_then_error c2_llm (fun _ => c2_err) (fun _ _ => ⟨rfl, rfl⟩)

/-- C2 counterexample: the claim also asserts that the terminal error
payload carries the last raw model response.  It does not: with every
response `"zzz"`, the raised `ValueError` message does not contain
`"zzz"` — only the attempt count and the error detail. -/
theorem C2_counterexample :
    check_facts_json c2_llm =
      .err (.valueError (final_error_message c2_err)) 5
        [mkCorrection "zzz".toList c2_err, mkCorrection "zzz".toList c2_err,
         mkCorrection "zzz".toList c2_err, mkCorrection "zzz".toList c2_err] ∧
    ¬ ("zzz".toList <:+: final_error_message c2_err) := by
  refine ⟨rfl, ?_⟩
  decide

/-- C3: three catchable failures followed by a structurally valid
response: `check_facts` succeeds on the 4th attempt with the verdict
validated from the 4th response, after exactly 3 correction calls, each
carrying the prior invalid response verbatim together with the specific
error text. -/
theorem C3_three_corrections_then_success (llm : ℕ → PyStr) (err : ℕ → PyExc)
    (v : JVal)
    (h : ∀ i, i < 3 →
        parse_attempt (llm i) = .error (err i) ∧ (err i).isCatchable = true)
    (h3 : parse_attempt (llm 3) = .ok v) :
    check_facts_json llm =
      .ok v 4 [mkCorrection (llm 0) (err 0), mkCorrection (llm 1) (err 1),
        mkCorrection (llm 2) (err 2)] ∧
    (∀ i, i < 3 →
        llm i <:+: (mkCorrection (llm i) (err i)).prompt ∧
        (err i).message <:+: (mkCorrection (llm i) (err i)).prompt) := by
  obtain ⟨h0, c0⟩ := h 0 (by norm_num)
  obtain ⟨h1, c1⟩ := h 1 (by norm_num)
  obtain ⟨h2, c2⟩ := h 2 (by norm_num)
  constructor
  · show check_facts_go llm 5 0 (llm 0) [] = _
    rw [show (5 : ℕ) = 4 + 1 from rfl,
      check_facts_go_step llm 4 0 (llm 0) [] (err 0) h0 c0 (by norm_num),
      show (4 : ℕ) = 3 + 1 from rfl,
      check_facts_go_step llm 3 1 (llm 1) _ (err 1) h1 c1 (by norm_num),
      show (3 : ℕ) = 2 + 1 from rfl,
      check_facts_go_step llm 2 2 (llm 2) _ (err 2) h2 c2 (by norm_num),
      show (2 : ℕ) = 1 + 1 from rfl,
      check_facts_go_ok llm 1 3 (llm 3) _ v h3]
    simp
  · intro i _
    exact correction_prompt_contains (llm i) ((err i).message)

/-- The response stream for the C3 scenario: `"zzz"` three times, then
a structurally valid verdict. -/
def c3_llm : ℕ → PyStr := fun i =>
  if i < 3 then "zzz".toList
  else "\x7b\"has_conflicts\": false, \"has_supporting_facts\": false, \"inconsistencies\": [], \"supporting_facts\": [], \"confidence\": 1, \"explanation\": \"ok\"\x7d".toList

/-- The verdict validated from the 4th response of `c3_llm`. -/
def c3_verdict : JVal :=
  .dict [(hcKey, .bool false), (hsfKey, .bool false), (incKey, .list []),
    (supKey, .list []), (confKey, .num 1), (explKey, .str "ok".toList)]

set_option maxRecDepth 8192 in
/-- Witness for C3 at the concrete stream. -/
theorem C3_three_corrections_then_success_witness :
    check_facts_json c3_llm =
      .ok c3_verdict 4 [mkCorrection "zzz".toList c2_err,
        mkCorrection "zzz".toList c2_err, mkCorrection "zzz".toList c2_err] ∧
    "zzz".toList <:+: (mkCorrection "zzz".toList c2_err).prompt :=
  ⟨(C3_three_corrections_then_success c3_llm (fun _ => c2_err) c3_verdict
      (fun i hi => ⟨by interval_cases i <;> rfl, rfl⟩) rfl).1,
   ((C3_three_corrections_then_success c3_llm (fun _ => c2_err) c3_verdict
      (fun i hi => ⟨by interval_cases i <;> rfl, rfl⟩) rfl).2 0 (by norm_num)).1⟩

/-! ### C4: cleaning fenced responses -/

theorem dropWhile_dropWhile (p : Char → Bool) (l : List Char) :
    List.dropWhile p (List.dropWhile p l) = List.dropWhile p l := by
  induction l with
  | nil => rfl
  | cons a l ih =>
      by_cases h : p a
      · simp [List.dropWhile_cons, h, ih]
      · simp [List.dropWhile_cons, h]

theorem dropWhile_eq_self_of_isPrefix {p : Char → Bool} {t t' : List Char}
    (h : t' <+: t) (ht : List.dropWhile p t = t) : List.dropWhile p t' = t' := by
  cases t' with
  | nil => rfl
  | cons a l' =>
      obtain ⟨u, hu⟩ := h
      have hpa : p a = false := by
        rw [Bool.eq_false_iff]
        intro hp
        rw [← hu, List.cons_append, List.dropWhile_cons, if_pos hp] at ht
        have hlen := congrArg List.length ht
        have hle : (List.dropWhile p (l' ++ u)).length ≤ (l' ++ u).length :=
          (List.dropWhile_suffix p).length_le
        simp only [List.length_cons] at hlen
        omega
      rw [List.dropWhile_cons, hpa]
      simp

theorem pyStrip_idem (s : PyStr) : pyStrip (pyStrip s) = pyStrip s := by
  unfold pyStrip
  have h1 : List.dropWhile Char.isWhitespace
      (((List.dropWhile Char.isWhitespace
          ((List.dropWhile Char.isWhitespace s).reverse)).reverse)) =
      (List.dropWhile Char.isWhitespace
        ((List.dropWhile Char.isWhitespace s).reverse)).reverse := by
    apply dropWhile_eq_self_of_isPrefix (t := List.dropWhile Char.isWhitespace s)
    · have hsuf : List.dropWhile Char.isWhitespace
          ((List.dropWhile Char.isWhitespace s).reverse) <:+
          (List.dropWhile Char.isWhitespace s).reverse :=
        List.dropWhile_suffix _
      have := List.reverse_prefix.mpr hsuf
      simpa using this
    · exact dropWhile_dropWhile _ s
  rw [h1, List.reverse_reverse, dropWhile_dropWhile]

theorem pyStrip_wrap (x y : Char) (m : PyStr)
    (hx : x.isWhitespace = false) (hy : y.isWhitespace = false) :
    pyStrip ((x :: m) ++ [y]) = (x :: m) ++ [y] := by
  unfold pyStrip
  rw [List.cons_append, List.dropWhile_cons, hx]
  simp only [if_false, Bool.false_eq_true]
  have h2 : (x :: (m ++ [y])).reverse = y :: (x :: m).reverse := by simp
  rw [h2, List.dropWhile_cons, hy]
  simp

theorem pyStrip_json_wrapped (s : PyStr) :
    pyStrip ("```json".toList ++ s ++ "```".toList) =
      "```json".toList ++ s ++ "```".toList := by
  have h : "```json".toList ++ s ++ "```".toList =
      ('`' :: (['`', '`', 'j', 's', 'o', 'n'] ++ s ++ ['`', '`'])) ++ ['`'] := by
    simp
  rw [h, pyStrip_wrap _ _ _ (by decide) (by decide)]

theorem pyStrip_plain_wrapped (s : PyStr) :
    pyStrip ("```".toList ++ s ++ "```".toList) =
      "```".toList ++ s ++ "```".toList := by
  have h : "```".toList ++ s ++ "```".toList =
      ('`' :: (['`', '`'] ++ s ++ ['`', '`'])) ++ ['`'] := by
    simp
  rw [h, pyStrip_wrap _ _ _ (by decide) (by decide)]

theorem stripFenceLead_json (s : PyStr) :
    stripFenceLead ("```json".toList ++ s ++ "```".toList) = s ++ "```".toList := by
  unfold stripFenceLead
  have hp : ("```json".toList).isPrefixOf ("```json".toList ++ s ++ "```".toList) = true := by
    rw [ List.isPrefixOf_iff_prefix, List.append_assoc]
    exact List.prefix_append _ _
  simp only [hp, if_true]
  rw [List.append_assoc, show (7 : ℕ) = ("```json".toList).length from rfl,
    List.drop_left]

/-- If `"json"` is not a prefix of `s`, it is not a prefix of
`s ++ "```"` either (it cannot straddle into the backticks). -/
theorem not_json_isPrefix_append (s : PyStr) (h : ¬ ("json".toList <+: s)) :
    ¬ ("json".toList <+: s ++ "```".toList) := by
  intro hc
  rcases le_or_lt 4 s.length with hs | hs
  · apply h
    rw [List.prefix_iff_eq_take] at hc ⊢
    rw [List.take_append_eq_append_take,
      show ("json".toList).length = 4 from rfl,
      Nat.sub_eq_zero_of_le hs, List.take_zero, List.append_nil] at hc
    rw [show ("json".toList).length = 4 from rfl]
    exact hc
  · rw [List.prefix_iff_eq_take, List.take_append_eq_append_take,
      show ("json".toList).length = 4 from rfl,
      List.take_of_length_le (le_of_lt hs)] at hc
    have h1 : 0 < 4 - s.length := by omega
    have hmem : '`' ∈ ("json".toList : PyStr) := by
      rw [hc]
      apply List.mem_append.mpr
      right
      rw [show ("```".toList : PyStr) = '`' :: ['`', '`'] from rfl, List.take_cons h1]
      exact List.mem_cons_self _ _
    exact absurd hmem (by decide)

theorem stripFenceLead_plain (s : PyStr) (h : ¬ ("json".toList <+: s)) :
    stripFenceLead ("```".toList ++ s ++ "```".toList) = s ++ "```".toList := by
  unfold stripFenceLead
  have hp1 : ("```json".toList).isPrefixOf ("```".toList ++ s ++ "```".toList) = false := by
    rw [Bool.eq_false_iff]
    intro hb
    have hpre := List.isPrefixOf_iff_prefix.mp hb
    rw [show ("```json".toList : PyStr) = "```".toList ++ "json".toList from rfl,
      List.append_assoc] at hpre
    exact not_json_isPrefix_append s h ((List.prefix_append_right_inj _).mp hpre)
  have hp2 : ("```".toList).isPrefixOf ("```".toList ++ s ++ "```".toList) = true := by
    rw [ List.isPrefixOf_iff_prefix, List.append_assoc]
    exact List.prefix_append _ _
  simp only [hp1, hp2, if_true, Bool.false_eq_true, if_false]
  rw [List.append_assoc, show (3 : ℕ) = ("```".toList).length from rfl,
    List.drop_left]

theorem stripFenceLead_id (r : PyStr) (h : ¬ ("```".toList <+: r)) :
    stripFenceLead r = r := by
  have hj : ¬ ("```json".toList <+: r) := fun hb =>
    h (List.IsPrefix.trans ⟨"json".toList, rfl⟩ hb)
  unfold stripFenceLead
  rw [if_neg (fun hb => hj (List.isPrefixOf_iff_prefix.mp hb)),
    if_neg (fun hb => h (List.isPrefixOf_iff_prefix.mp hb))]

theorem stripFenceTrail_append (s : PyStr) :
    stripFenceTrail (s ++ "```".toList) = s := by
  unfold stripFenceTrail
  have hs : ("```".toList).isSuffixOf (s ++ "```".toList) = true :=
    List.isSuffixOf_iff_suffix.mpr (List.suffix_append _ _)
  simp only [hs, if_true]
  rw [List.length_append, show ("```".toList).length = 3 from rfl,
    Nat.add_sub_cancel]
  exact List.take_left _ _

theorem stripFenceTrail_id (r : PyStr) (h : ¬ ("```".toList <:+ r)) :
    stripFenceTrail r = r := by
  unfold stripFenceTrail
  rw [if_neg (fun hb => h (List.isSuffixOf_iff_suffix.mp hb))]

/-- C4 counterexample: the claim quantifies over every response string,
but it fails when the response itself carries fence markers: for
`s = "x```"`, cleaning the ```json-wrapped version yields `"x```"`
while cleaning the bare string yields `"x"`. -/
theorem C4_counterexample :
    clean_json_response ("```json".toList ++ "x```".toList ++ "```".toList) ≠
      clean_json_response "x```".toList := by
  decide

/-- C4 amended: for every response whose stripped form does not itself
begin or end with a fence marker (and does not begin with `"json"`,
which the bare-fence wrap would turn into a ```json fence), cleaning
the fenced version — either fence style — yields byte-identical output
to cleaning the unfenced response. -/
theorem C4_clean_fenced (s : PyStr)
    (h1 : ¬ ("```".toList <+: pyStrip s))
    (h2 : ¬ ("```".toList <:+ pyStrip s))
    (h3 : ¬ ("json".toList <+: s)) :
    clean_json_response ("```json".toList ++ s ++ "```".toList) =
      clean_json_response s ∧
    clean_json_response ("```".toList ++ s ++ "```".toList) =
      clean_json_response s := by
  have hcs : clean_json_response s = pyStrip s := by
    unfold clean_json_response
    rw [stripFenceLead_id _ h1, stripFenceTrail_id _ h2, pyStrip_idem]
  constructor
  · rw [hcs]
    unfold clean_json_response
    rw [pyStrip_json_wrapped, stripFenceLead_json, stripFenceTrail_append]
  · rw [hcs]
    unfold clean_json_response
    rw [pyStrip_plain_wrapped, stripFenceLead_plain _ h3, stripFenceTrail_append]

/-- Witness for C4 amended at `s = "hello"`. -/
theorem C4_clean_fenced_witness :
    clean_json_response ("```json".toList ++ "hello".toList ++ "```".toList) =
      clean_json_response "hello".toList :=
  (C4_clean_fenced "hello".toList (by decide) (by decide) (by decide)).1

/-! ### C5/C6: normalization invariants of `_validate_response` -/

theorem exceptBind_ok {α β : Type} {e : Except PyExc α} {f : α → Except PyExc β}
    {b : β} (h : e >>= f = .ok b) : ∃ a, e = .ok a ∧ f a = .ok b := by
  cases e with
  | error ex => exact absurd h (by simp [Bind.bind, Except.bind])
  | ok a => exact ⟨a, rfl, by simpa [Bind.bind, Except.bind] using h⟩

theorem pySubscript_dict_ok {d : Dict} {k : PyStr} {x : JVal}
    (h : pySubscript (.dict d) k = .ok x) : alookup d k = some x := by
  simp only [pySubscript] at h
  cases hl : alookup d k <;> rw [hl] at h
  · exact absurd h (by simp)
  · simpa using h

theorem alookup_aset {α : Type} (d : List (PyStr × α)) (k k' : PyStr) (v : α) :
    alookup (aset d k v) k' = if k = k' then some v else alookup d k' := by
  by_cases h : k = k'
  · subst h
    simp [alookup_aset_self]
  · simp [h, alookup_aset_ne _ _ _ _ h]

theorem normalizeLists_inc (d : Dict) (incF supF : List JVal) :
    alookup (normalizeLists d incF supF) incKey = some (.list incF) := by
  unfold normalizeLists
  by_cases e1 : incF.isEmpty <;> by_cases e2 : supF.isEmpty <;>
    simp [e1, e2, alookup_aset, hcKey, hsfKey, incKey, supKey]

theorem normalizeLists_sup (d : Dict) (incF supF : List JVal) :
    alookup (normalizeLists d incF supF) supKey = some (.list supF) := by
  unfold normalizeLists
  by_cases e1 : incF.isEmpty <;> by_cases e2 : supF.isEmpty <;>
    simp [e1, e2, alookup_aset, hcKey, hsfKey, incKey, supKey]

theorem normalizeLists_hc (d : Dict) (incF supF : List JVal) :
    alookup (normalizeLists d incF supF) hcKey =
      if incF.isEmpty then some (.bool false) else alookup d hcKey := by
  unfold normalizeLists
  by_cases e1 : incF.isEmpty <;> by_cases e2 : supF.isEmpty <;>
    simp [e1, e2, alookup_aset, hcKey, hsfKey, incKey, supKey]

theorem normalizeLists_hsf (d : Dict) (incF supF : List JVal) :
    alookup (normalizeLists d incF supF) hsfKey =
      if supF.isEmpty then some (.bool false) else alookup d hsfKey := by
  unfold normalizeLists
  by_cases e1 : incF.isEmpty <;> by_cases e2 : supF.isEmpty <;>
    simp [e1, e2, alookup_aset, hcKey, hsfKey, incKey, supKey]

theorem normalizeLists_other (d : Dict) (incF supF : List JVal) (k : PyStr)
    (h1 : incKey ≠ k) (h2 : hcKey ≠ k) (h3 : supKey ≠ k) (h4 : hsfKey ≠ k) :
    alookup (normalizeLists d incF supF) k = alookup d k := by
  unfold normalizeLists
  by_cases e1 : incF.isEmpty <;> by_cases e2 : supF.isEmpty <;>
    simp [e1, e2, alookup_aset, h1, h2, h3, h4]

theorem normalizeLists_self (d' : Dict) (incF supF : List JVal)
    (hinc : alookup d' incKey = some (.list incF))
    (hsup : alookup d' supKey = some (.list supF))
    (hhc : incF.isEmpty = true → alookup d' hcKey = some (.bool false))
    (hhsf : supF.isEmpty = true → alookup d' hsfKey = some (.bool false)) :
    normalizeLists d' incF supF = d' := by
  unfold normalizeLists
  by_cases e1 : incF.isEmpty <;> by_cases e2 : supF.isEmpty <;>
    simp only [e1, e2, Bool.false_eq_true, if_true, ite_false, ite_true, if_false] <;>
    first
      | rw [aset_eq_self _ _ _ hinc, aset_eq_self _ _ _ (hhc e1),
          aset_eq_self _ _ _ hsup, aset_eq_self _ _ _ (hhsf e2)]
      | rw [aset_eq_self _ _ _ hinc, aset_eq_self _ _ _ (hhc e1),
          aset_eq_self _ _ _ hsup]
      | rw [aset_eq_self _ _ _ hinc, aset_eq_self _ _ _ hsup,
          aset_eq_self _ _ _ (hhsf e2)]
      | rw [aset_eq_self _ _ _ hinc, aset_eq_self _ _ _ hsup]

theorem isinstBool_true {v : JVal} (h : isinstBool v = true) : ∃ b, v = .bool b := by
  cases v with
  | bool b => exact ⟨b, rfl⟩
  | none => simp [isinstBool] at h
  | num q => simp [isinstBool] at h
  | str s => simp [isinstBool] at h
  | list l => simp [isinstBool] at h
  | dict dd => simp [isinstBool] at h

theorem isinstList_true {v : JVal} (h : isinstList v = true) : ∃ xs, v = .list xs := by
  cases v with
  | list xs => exact ⟨xs, rfl⟩
  | none => simp [isinstList] at h
  | num q => simp [isinstList] at h
  | str s => simp [isinstList] at h
  | bool b => simp [isinstList] at h
  | dict dd => simp [isinstList] at h

/-- Inversion: everything a successful `_validate_response` run on a
dict establishes about it, and the exact shape of its output. -/
theorem validate_response_dict_ok {d : Dict} {v : JVal}
    (h : validate_response (.dict d) = .ok v) :
    ∃ (hc hsf : Bool) (incXs supXs incF supF : List JVal) (conf expl : JVal),
      alookup d hcKey = some (.bool hc) ∧
      alookup d hsfKey = some (.bool hsf) ∧
      alookup d incKey = some (.list incXs) ∧
      alookup d supKey = some (.list supXs) ∧
      alookup d confKey = some conf ∧ isinstNum conf = true ∧
      alookup d explKey = some expl ∧ isinstStr expl = true ∧
      checkElements incElemMsg incXs = .ok () ∧
      checkElements supElemMsg supXs = .ok () ∧
      filterNonemptyFact incXs = .ok incF ∧
      filterNonemptyFact supXs = .ok supF ∧
      v = .dict (normalizeLists d incF supF) := by
  unfold validate_response at h
  obtain ⟨ap, hap, h⟩ := exceptBind_ok h
  cases ap with
  | false => simp at h
  | true =>
  simp only [Bool.not_true, Bool.false_eq_true, if_false, ite_false] at h
  obtain ⟨hcv, hhc, h⟩ := exceptBind_ok h
  have Hhc := pySubscript_dict_ok hhc
  cases hb1 : isinstBool hcv with
  | false => rw [hb1] at h; simp at h
  | true =>
  obtain ⟨b1, rfl⟩ := isinstBool_true hb1
  rw [hb1] at h
  simp only [Bool.not_true, Bool.false_eq_true, if_false, ite_false] at h
  obtain ⟨hsfv, hhsf, h⟩ := exceptBind_ok h
  have Hhsf := pySubscript_dict_ok hhsf
  cases hb2 : isinstBool hsfv with
  | false => rw [hb2] at h; simp at h
  | true =>
  obtain ⟨b2, rfl⟩ := isinstBool_true hb2
  rw [hb2] at h
  simp only [Bool.not_true, Bool.false_eq_true, if_false, ite_false] at h
  obtain ⟨incv, hincv, h⟩ := exceptBind_ok h
  have Hinc := pySubscript_dict_ok hincv
  cases hl1 : isinstList incv with
  | false => rw [hl1] at h; simp at h
  | true =>
  obtain ⟨incXs, rfl⟩ := isinstList_true hl1
  rw [hl1] at h
  simp only [Bool.not_true, Bool.false_eq_true, if_false, ite_false] at h
  obtain ⟨supv, hsupv, h⟩ := exceptBind_ok h
  have Hsup := pySubscript_dict_ok hsupv
  cases hl2 : isinstList supv with
  | false => rw [hl2] at h; simp at h
  | true =>
  obtain ⟨supXs, rfl⟩ := isinstList_true hl2
  rw [hl2] at h
  simp only [Bool.not_true, Bool.false_eq_true, if_false, ite_false] at h
  obtain ⟨conf, hconf, h⟩ := exceptBind_ok h
  have Hconf := pySubscript_dict_ok hconf
  cases hn : isinstNum conf with
  | false => rw [hn] at h; simp at h
  | true =>
  rw [hn] at h
  simp only [Bool.not_true, Bool.false_eq_true, if_false, ite_false] at h
  obtain ⟨expl, hexpl, h⟩ := exceptBind_ok h
  have Hexpl := pySubscript_dict_ok hexpl
  cases hstr : isinstStr expl with
  | false => rw [hstr] at h; simp at h
  | true =>
  rw [hstr] at h
  simp only [Bool.not_true, Bool.false_eq_true, if_false, ite_false] at h
  obtain ⟨u1, hchk1, h⟩ := exceptBind_ok h
  obtain ⟨u2, hchk2, h⟩ := exceptBind_ok h
  obtain ⟨incF, hfil1, h⟩ := exceptBind_ok h
  obtain ⟨supF, hfil2, h⟩ := exceptBind_ok h
  have hv : v = .dict (normalizeLists d incF supF) := by
    injection h with h'
    exact h'.symm
  exact ⟨b1, b2, incXs, supXs, incF, supF, conf, expl, Hhc, Hhsf, Hinc, Hsup,
    Hconf, hn, Hexpl, hstr, (by cases u1; exact hchk1), (by cases u2; exact hchk2),
    hfil1, hfil2, hv⟩

/-- Forward evaluation: a dict with well-typed fields whose element
checks and filters succeed validates to the normalized dict. -/
theorem validate_response_dict_eval (d : Dict) (hc hsf : Bool)
    (incXs supXs incF supF : List JVal) (conf expl : JVal)
    (h1 : alookup d hcKey = some (.bool hc))
    (h2 : alookup d hsfKey = some (.bool hsf))
    (h3 : alookup d incKey = some (.list incXs))
    (h4 : alookup d supKey = some (.list supXs))
    (h5 : alookup d confKey = some conf) (h5t : isinstNum conf = true)
    (h6 : alookup d explKey = some expl) (h6t : isinstStr expl = true)
    (h7 : checkElements incElemMsg incXs = .ok ())
    (h8 : checkElements supElemMsg supXs = .ok ())
    (h9 : filterNonemptyFact incXs = .ok incF)
    (h10 : filterNonemptyFact supXs = .ok supF) :
    validate_response (.dict d) = .ok (.dict (normalizeLists d incF supF)) := by
  unfold validate_response
  have hreq : requiredFieldsCheck (.dict d) = .ok true := by
    simp [requiredFieldsCheck, pyIn, h1, h3, h4, h5, h6, Bind.bind, Except.bind,
      pure, Except.pure]
  rw [hreq]
  simp only [Bind.bind, Except.bind, pySubscript, h1, h2, h3, h4, h5, h6,
    isinstBool, isinstList, h5t, h6t, Bool.not_true, Bool.false_eq_true,
    if_false, ite_false, h7, h8, h9, h10]

theorem filterNonemptyFact_idem {xs ys : List JVal}
    (h : filterNonemptyFact xs = .ok ys) : filterNonemptyFact ys = .ok ys := by
  induction xs generalizing ys with
  | nil =>
      unfold filterNonemptyFact at h
      injection h with h'
      subst h'
      rfl
  | cons e rest ih =>
      unfold filterNonemptyFact at h
      obtain ⟨f, hf, h⟩ := exceptBind_ok h
      obtain ⟨rest', hrest, h⟩ := exceptBind_ok h
      by_cases ht : pyTruthy f = true
      · rw [if_pos ht] at h
        injection h with h'
        subst h'
        have hr := ih hrest
        unfold filterNonemptyFact
        simp [Bind.bind, Except.bind, hf, hr, ht]
      · rw [if_neg ht] at h
        injection h with h'
        subst h'
        exact ih hrest

theorem checkElements_filter {m : PyStr} {xs ys : List JVal}
    (hc : checkElements m xs = .ok ()) (hf : filterNonemptyFact xs = .ok ys) :
    checkElements m ys = .ok () := by
  induction xs generalizing ys with
  | nil =>
      unfold filterNonemptyFact at hf
      injection hf with h'
      subst h'
      rfl
  | cons e rest ih =>
      unfold checkElements at hc
      obtain ⟨ok1, hok1, hc⟩ := exceptBind_ok hc
      cases ok1 with
      | false => simp at hc
      | true =>
      simp only [Bool.not_true, Bool.false_eq_true, if_false, ite_false] at hc
      unfold filterNonemptyFact at hf
      obtain ⟨f, hfe, hf⟩ := exceptBind_ok hf
      obtain ⟨rest', hrest, hf⟩ := exceptBind_ok hf
      by_cases ht : pyTruthy f = true
      · rw [if_pos ht] at hf
        injection hf with h'
        subst h'
        have hr := ih hc hrest
        unfold checkElements
        simp [Bind.bind, Except.bind, hok1, hr]
      · rw [if_neg ht] at hf
        injection hf with h'
        subst h'
        exact ih hc hrest

/-- The spec's invariant, rendered from its words for comparison with
the code: `hasConflicts == len(inconsistencies) > 0` and
`hasSupportingFacts == len(supportingFacts) > 0` after
normalization. -/
def specFlagBiconditional (d : Dict) : Bool :=
  (match alookup d hcKey, alookup d incKey with
    | some (.bool b), some (.list xs) => b == !xs.isEmpty
    | _, _ => false) &&
  (match alookup d hsfKey, alookup d supKey with
    | some (.bool b), some (.list xs) => b == !xs.isEmpty
    | _, _ => false)

/-- A well-formed inconsistency/supporting-fact element with a
non-empty `fact`. -/
def c5_elem : JVal :=
  .dict [(stKey, .str "s".toList), (factKey, .str "f".toList),
    (explKey, .str "e".toList)]

/-- A structurally valid response whose model-set `has_conflicts` flag
is `false` although its `inconsistencies` list is non-empty. -/
def c5_input : Dict :=
  [(hcKey, .bool false), (hsfKey, .bool false), (incKey, .list [c5_elem]),
   (supKey, .list []), (confKey, .num 1), (explKey, .str "ok".toList)]

/-- C5 counterexample: the claimed biconditional fails — validation
accepts `c5_input` unchanged, leaving `has_conflicts = false` next to a
non-empty filtered `inconsistencies` list; normalization only forces a
flag to `false` when its list is empty, never to `true` when it is
not. -/
theorem C5_counterexample :
    validate_response (.dict c5_input) = .ok (.dict c5_input) ∧
    specFlagBiconditional c5_input = false :=
  ⟨rfl, rfl⟩

/-- C5 amended: after successful validation only one direction holds:
a `true` flag implies the corresponding filtered list is non-empty
(equivalently, an empty filtered list forces the flag to `false`); the
converse — a non-empty list forcing the flag `true` — does not hold. -/
theorem C5_flag_implies_nonempty (d d' : Dict)
    (h : validate_response (.dict d) = .ok (.dict d')) :
    (alookup d' hcKey = some (.bool true) →
      ∃ xs, alookup d' incKey = some (.list xs) ∧ xs ≠ []) ∧
    (alookup d' hsfKey = some (.bool true) →
      ∃ xs, alookup d' supKey = some (.list xs) ∧ xs ≠ []) := by
  obtain ⟨hc, hsf, incXs, supXs, incF, supF, conf, expl, h1, h2, h3, h4, h5,
    h5t, h6, h6t, h7, h8, h9, h10, hv⟩ := validate_response_dict_ok h
  have hd' : d' = normalizeLists d incF supF := by
    injection hv
  subst hd'
  constructor
  · intro htrue
    rw [normalizeLists_hc] at htrue
    by_cases e1 : incF.isEmpty
    · rw [if_pos e1] at htrue
      simp at htrue
    · exact ⟨incF, normalizeLists_inc _ _ _, fun he => e1 (by simp [he])⟩
  · intro htrue
    rw [normalizeLists_hsf] at htrue
    by_cases e2 : supF.isEmpty
    · rw [if_pos e2] at htrue
      simp at htrue
    · exact ⟨supF, normalizeLists_sup _ _ _, fun he => e2 (by simp [he])⟩

/-- Witness for C5 amended at the concrete `c5_input`. -/
theorem C5_flag_implies_nonempty_witness :
    (alookup c5_input hcKey = some (.bool true) →
      ∃ xs, alookup c5_input incKey = some (.list xs) ∧ xs ≠ []) ∧
    (alookup c5_input hsfKey = some (.bool true) →
      ∃ xs, alookup c5_input supKey = some (.list xs) ∧ xs ≠ []) :=
  C5_flag_implies_nonempty c5_input c5_input rfl

/-- The "no empty fact fields" hypothesis of C6: both lists consist of
dict elements whose `fact` value is truthy. -/
def allFactsTruthy (xs : List JVal) : Bool :=
  xs.all fun v =>
    match v with
    | .dict e => pyTruthy ((alookup e factKey).getD .none)
    | _ => false

theorem filterNonemptyFact_of_allTruthy {xs : List JVal}
    (h : allFactsTruthy xs = true) : filterNonemptyFact xs = .ok xs := by
  induction xs with
  | nil => rfl
  | cons e rest ih =>
      unfold allFactsTruthy at h
      rw [List.all_cons, Bool.and_eq_true] at h
      obtain ⟨he, hrest⟩ := h
      cases e with
      | dict ed =>
          unfold filterNonemptyFact
          simp only [pyGet, Bind.bind, Except.bind, ih hrest]
          simp at he
          simp [he]
      | none => simp at he
      | bool b => simp at he
      | num q => simp at he
      | str s => simp at he
      | list l => simp at he

/-- C6: for every structurally valid response dict whose list elements
all carry non-empty `fact` fields, `_validate_response` is idempotent:
running it on its own output returns that output unchanged. -/
theorem C6_validate_idempotent (d : Dict) (v : JVal)
    (hval : validate_response (.dict d) = .ok v)
    (_hfacts : (match alookup d incKey, alookup d supKey with
        | some (.list xs), some (.list ys) => allFactsTruthy xs && allFactsTruthy ys
        | _, _ => false) = true) :
    validate_response v = .ok v := by
  obtain ⟨hc, hsf, incXs, supXs, incF, supF, conf, expl, h1, h2, h3, h4, h5,
    h5t, h6, h6t, h7, h8, h9, h10, hv⟩ := validate_response_dict_ok hval
  subst hv
  have hhc' : alookup (normalizeLists d incF supF) hcKey =
      some (.bool (if incF.isEmpty then false else hc)) := by
    rw [normalizeLists_hc]
    by_cases e1 : incF.isEmpty <;> simp [e1, h1]
  have hhsf' : alookup (normalizeLists d incF supF) hsfKey =
      some (.bool (if supF.isEmpty then false else hsf)) := by
    rw [normalizeLists_hsf]
    by_cases e2 : supF.isEmpty <;> simp [e2, h2]
  have hconf' : alookup (normalizeLists d incF supF) confKey = some conf := by
    rw [normalizeLists_other _ _ _ _ (by decide) (by decide) (by decide) (by decide)]
    exact h5
  have hexpl' : alookup (normalizeLists d incF supF) explKey = some expl := by
    rw [normalizeLists_other _ _ _ _ (by decide) (by decide) (by decide) (by decide)]
    exact h6
  have heval := validate_response_dict_eval (normalizeLists d incF supF)
    (if incF.isEmpty then false else hc) (if supF.isEmpty then false else hsf)
    incF supF incF supF conf expl hhc' hhsf'
    (normalizeLists_inc _ _ _) (normalizeLists_sup _ _ _)
    hconf' h5t hexpl' h6t
    (checkElements_filter h7 h9) (checkElements_filter h8 h10)
    (filterNonemptyFact_idem h9) (filterNonemptyFact_idem h10)
  rw [heval, normalizeLists_self]
  · exact normalizeLists_inc _ _ _
  · exact normalizeLists_sup _ _ _
  · intro he
    rw [hhc', he]
    simp
  · intro he
    rw [hhsf', he]
    simp

/-- A structurally valid response with non-empty `fact` fields, fixed
by validation. -/
def c6_input : Dict :=
  [(hcKey, .bool true), (hsfKey, .bool true),
   (incKey, .list [.dict [(stKey, .str "s1".toList), (factKey, .str "f1".toList),
     (explKey, .str "e1".toList)]]),
   (supKey, .list [.dict [(stKey, .str "s2".toList), (factKey, .str "f2".toList),
     (explKey, .str "e2".toList)]]),
   (confKey, .num (9/10)), (explKey, .str "fine".toList)]

/-- Witness for C6 at the concrete `c6_input` (validation fixes it, so
idempotence shows it re-validates to itself). -/
theorem C6_validate_idempotent_witness :
    validate_response (.dict c6_input) = .ok (.dict c6_input) :=
  C6_validate_idempotent c6_input (.dict c6_input) rfl rfl

end CollisionDetection
